import Mathlib

/-!
Verification development for the BXI ELF3 actuator-parameter derivation and
joint-binding configuration (`mjlab/asset_zoo/robots/bxi_elf3/elf3_constants.py`
and `mjlab/tasks/velocity/config/elf3/env_cfgs.py`).

All Python float arithmetic is embedded as exact rational (ℚ) arithmetic:
every constant in the source is an exact decimal or an exact ratio, so the
algebraic identities under scrutiny are identities of the defining rational
expressions. Python dictionaries are embedded as insertion-ordered
association lists with the overwrite-on-existing-key semantics of `dict`.
-/

/-- Python `dict` assignment `d[k] = v`: overwrite in place when the key is
present (keeping its position), append at the end otherwise. -/
def pyInsert {β : Type} (d : List (String × β)) (k : String) (v : β) :
    List (String × β) :=
  if d.any (fun p => p.1 = k) then d.map (fun p => if p.1 = k then (k, v) else p)
  else d ++ [(k, v)]

/-- Python `dict` lookup `d[k]`, as an `Option`. -/
def pyLookup {β : Type} (d : List (String × β)) (k : String) : Option β :=
  (d.find? (fun p => p.1 = k)).map Prod.snd

/-- Python in-place update of a value at a key (`d[k].field = ...`): apply `f`
to the value at key `k`; leave the dict unchanged when the key is absent. -/
def updAt {β : Type} (d : List (String × β)) (k : String) (f : β → β) :
    List (String × β) :=
  d.map (fun p => if p.1 = k then (p.1, f p.2) else p)

/-- Python `del d[k]` / `d.pop(k, None)`: remove the entry, keep the order of
the remaining entries. -/
def pyDel {β : Type} (d : List (String × β)) (k : String) : List (String × β) :=
  d.filter (fun p => p.1 ≠ k)

/-! ## Actuator data model (`mjlab.actuator`, `mjlab.utils.actuator`, `mjlab.entity`) -/

/-- `ElectricActuator` from `mjlab.utils.actuator`: the fields used by
`elf3_constants.py`. -/
structure ElectricActuator where
  reflected_inertia : ℚ
  velocity_limit : ℚ
  effort_limit : ℚ
deriving DecidableEq

/-- `BuiltinPositionActuatorCfg` from `mjlab.actuator`: the fields used by
`elf3_constants.py`. `effort_limit` is optional in the Python dataclass,
which is why the action-scale loop asserts it is not `None`. -/
structure BuiltinPositionActuatorCfg where
  target_names_expr : List String
  stiffness : ℚ
  damping : ℚ
  effort_limit : Option ℚ
  armature : ℚ
deriving DecidableEq

/-- An element of `EntityArticulationInfoCfg.actuators`: in Python the tuple
may hold any actuator-config class; the action-scale loop checks
`isinstance(a, BuiltinPositionActuatorCfg)` at runtime.  The `other`
constructor stands for any non-`BuiltinPositionActuatorCfg` element. -/
inductive ActuatorCfg
  | builtinPosition (c : BuiltinPositionActuatorCfg)
  | other (tag : Nat)
deriving DecidableEq

/-- `EntityArticulationInfoCfg` from `mjlab.entity`: the fields used by
`elf3_constants.py`. -/
structure EntityArticulationInfoCfg where
  actuators : List ActuatorCfg
  soft_joint_pos_limit_factor : ℚ
deriving DecidableEq

/-- Modelled from the spec: the body of `reflected_inertia_from_two_stage_planetary`
(`mjlab.utils.actuator`) is not part of the repository slice; only its call
sites are.  Spec §4.1: "for a multi-stage reduction, each stage's rotor
inertia is divided by the square of the *cumulative* gear ratio up to and
including that stage (inertia reflects through gearing as 1/ratio²); the
stage contributions are then summed."  The ELF3 call sites pass three rotor
inertias and three gear-stage ratios, so the cumulative ratios are
`g₁`, `g₁·g₂`, `g₁·g₂·g₃`. -/
def reflected_inertia_from_two_stage_planetary
    (rotor_inertias gear_ratios : ℚ × ℚ × ℚ) : ℚ :=
  let (i1, i2, i3) := rotor_inertias
  let (g1, g2, g3) := gear_ratios
  i1 / g1 ^ 2 + i2 / (g1 * g2) ^ 2 + i3 / (g1 * g2 * g3) ^ 2

/-! ## Motor specs (`elf3_constants.py`, lines 42–110) -/

def ROTOR_INERTIAS_BXI50 : ℚ × ℚ × ℚ :=
  ((0.0760e-4 + 0.0300e-4), 0.0892e-4, 0.1807e-4)

def GEARS_BXI50 : ℚ × ℚ × ℚ := (1, 1 + (65 / 19), 1 + (65 / 19))

def ARMATURE_BXI50 : ℚ :=
  reflected_inertia_from_two_stage_planetary ROTOR_INERTIAS_BXI50 GEARS_BXI50

def ROTOR_INERTIAS_BXI70 : ℚ × ℚ × ℚ :=
  ((0.2620e-4 + 0.0802e-4), 0.3099e-4, 0.5617e-4)

def GEARS_BXI70 : ℚ × ℚ × ℚ := (1, 1 + (65 / 19), 1 + (65 / 19))

def ARMATURE_BXI70 : ℚ :=
  reflected_inertia_from_two_stage_planetary ROTOR_INERTIAS_BXI70 GEARS_BXI70

def ROTOR_INERTIAS_BXI85 : ℚ × ℚ × ℚ :=
  ((0.8590e-4 + 0.2683e-4), 0.7604e-4, 1.3499e-4)

def GEARS_BXI85 : ℚ × ℚ × ℚ := (1, 1 + (65 / 19), 1 + (65 / 19))

def ARMATURE_BXI85 : ℚ :=
  reflected_inertia_from_two_stage_planetary ROTOR_INERTIAS_BXI85 GEARS_BXI85

def ACTUATOR_BXI50 : ElectricActuator :=
  { reflected_inertia := ARMATURE_BXI50, velocity_limit := 20.0, effort_limit := 21.0 }

def ACTUATOR_BXI70 : ElectricActuator :=
  { reflected_inertia := ARMATURE_BXI70, velocity_limit := 20.0, effort_limit := 45.0 }

def ACTUATOR_BXI85 : ElectricActuator :=
  { reflected_inertia := ARMATURE_BXI85, velocity_limit := 20.0, effort_limit := 150.0 }

def NATURAL_FREQ : ℚ := 10 * 2.0 * 3.1415926535

def DAMPING_RATIO : ℚ := 2.0

def STIFFNESS_BXI50 : ℚ := ARMATURE_BXI50 * NATURAL_FREQ ^ 2
def STIFFNESS_BXI70 : ℚ := ARMATURE_BXI70 * NATURAL_FREQ ^ 2
def STIFFNESS_BXI85 : ℚ := ARMATURE_BXI85 * NATURAL_FREQ ^ 2

def DAMPING_BXI50 : ℚ := 2.0 * DAMPING_RATIO * ARMATURE_BXI50 * NATURAL_FREQ
def DAMPING_BXI70 : ℚ := 2.0 * DAMPING_RATIO * ARMATURE_BXI70 * NATURAL_FREQ
def DAMPING_BXI85 : ℚ := 2.0 * DAMPING_RATIO * ARMATURE_BXI85 * NATURAL_FREQ

/-! ## Group actuator configs (`elf3_constants.py`, lines 112–181) -/

def ELF3_ACTUATOR_BXI50 : BuiltinPositionActuatorCfg :=
  { target_names_expr :=
      [".*_shoulder_z_joint", ".*_wrist_x_joint", ".*_wrist_y_joint", ".*_wrist_z_joint"]
    stiffness := STIFFNESS_BXI50
    damping := DAMPING_BXI50
    effort_limit := some ACTUATOR_BXI50.effort_limit
    armature := ACTUATOR_BXI50.reflected_inertia }

def ELF3_ACTUATOR_BXI70 : BuiltinPositionActuatorCfg :=
  { target_names_expr :=
      [".*_hip_z_joint", ".*_shoulder_y_joint", ".*_shoulder_x_joint", ".*_elbow_y_joint"]
    stiffness := STIFFNESS_BXI70
    damping := DAMPING_BXI70
    effort_limit := some ACTUATOR_BXI70.effort_limit
    armature := ACTUATOR_BXI70.reflected_inertia }

def ELF3_ACTUATOR_BXI85 : BuiltinPositionActuatorCfg :=
  { target_names_expr :=
      ["waist_z_joint", ".*_hip_y_joint", ".*_hip_x_joint", ".*_knee_y_joint"]
    stiffness := STIFFNESS_BXI85
    damping := DAMPING_BXI85
    effort_limit := some ACTUATOR_BXI85.effort_limit
    armature := ACTUATOR_BXI85.reflected_inertia }

def ELF3_ACTUATOR_WAIST_Y : BuiltinPositionActuatorCfg :=
  { target_names_expr := ["waist_y_joint"]
    stiffness := STIFFNESS_BXI70 * 2
    damping := DAMPING_BXI70 * 2
    effort_limit := some 90
    armature := ACTUATOR_BXI70.reflected_inertia * 2 }

def ELF3_ACTUATOR_WAIST_X : BuiltinPositionActuatorCfg :=
  { target_names_expr := ["waist_x_joint"]
    stiffness := STIFFNESS_BXI70 * 3
    damping := DAMPING_BXI70 * 3
    effort_limit := some 100
    armature := ACTUATOR_BXI70.reflected_inertia * 3 }

def ELF3_ACTUATOR_ANKLE_Y : BuiltinPositionActuatorCfg :=
  { target_names_expr := [".*_ankle_y_joint"]
    stiffness := STIFFNESS_BXI50 * 2
    damping := DAMPING_BXI50 * 2
    effort_limit := some 40
    armature := ACTUATOR_BXI50.reflected_inertia * 2 }

def ELF3_ACTUATOR_ANKLE_X : BuiltinPositionActuatorCfg :=
  { target_names_expr := [".*_ankle_x_joint"]
    stiffness := 10.
    damping := 1.
    effort_limit := some 15
    armature := ACTUATOR_BXI50.reflected_inertia * 1.3 }

/-! ## Per-joint actuator configs (`elf3_constants.py`, lines 300–530) -/

def waist_y_joint : BuiltinPositionActuatorCfg :=
  { target_names_expr := ["waist_y_joint"]
    stiffness := ELF3_ACTUATOR_WAIST_Y.stiffness
    damping := ELF3_ACTUATOR_WAIST_Y.damping
    effort_limit := ELF3_ACTUATOR_WAIST_Y.effort_limit
    armature := ELF3_ACTUATOR_WAIST_Y.armature }

def waist_x_joint : BuiltinPositionActuatorCfg :=
  { target_names_expr := ["waist_x_joint"]
    stiffness := ELF3_ACTUATOR_WAIST_X.stiffness
    damping := ELF3_ACTUATOR_WAIST_X.damping
    effort_limit := ELF3_ACTUATOR_WAIST_X.effort_limit
    armature := ELF3_ACTUATOR_WAIST_X.armature }

def waist_z_joint : BuiltinPositionActuatorCfg :=
  { target_names_expr := ["waist_z_joint"]
    stiffness := ELF3_ACTUATOR_BXI85.stiffness
    damping := ELF3_ACTUATOR_BXI85.damping
    effort_limit := ELF3_ACTUATOR_BXI85.effort_limit
    armature := ELF3_ACTUATOR_BXI85.armature }

def l_hip_y_joint : BuiltinPositionActuatorCfg :=
  { target_names_expr := ["l_hip_y_joint"]
    stiffness := ELF3_ACTUATOR_BXI85.stiffness
    damping := ELF3_ACTUATOR_BXI85.damping
    effort_limit := ELF3_ACTUATOR_BXI85.effort_limit
    armature := ELF3_ACTUATOR_BXI85.armature }

def l_hip_x_joint : BuiltinPositionActuatorCfg :=
  { target_names_expr := ["l_hip_x_joint"]
    stiffness := ELF3_ACTUATOR_BXI85.stiffness
    damping := ELF3_ACTUATOR_BXI85.damping
    effort_limit := ELF3_ACTUATOR_BXI85.effort_limit
    armature := ELF3_ACTUATOR_BXI85.armature }

def l_hip_z_joint : BuiltinPositionActuatorCfg :=
  { target_names_expr := ["l_hip_z_joint"]
    stiffness := ELF3_ACTUATOR_BXI70.stiffness
    damping := ELF3_ACTUATOR_BXI70.damping
    effort_limit := ELF3_ACTUATOR_BXI70.effort_limit
    armature := ELF3_ACTUATOR_BXI70.armature }

def l_knee_y_joint : BuiltinPositionActuatorCfg :=
  { target_names_expr := ["l_knee_y_joint"]
    stiffness := ELF3_ACTUATOR_BXI85.stiffness
    damping := ELF3_ACTUATOR_BXI85.damping
    effort_limit := ELF3_ACTUATOR_BXI85.effort_limit
    armature := ELF3_ACTUATOR_BXI85.armature }

def l_ankle_y_joint : BuiltinPositionActuatorCfg :=
  { target_names_expr := ["l_ankle_y_joint"]
    stiffness := ELF3_ACTUATOR_ANKLE_Y.stiffness
    damping := ELF3_ACTUATOR_ANKLE_Y.damping
    effort_limit := ELF3_ACTUATOR_ANKLE_Y.effort_limit
    armature := ELF3_ACTUATOR_ANKLE_Y.armature }

def l_ankle_x_joint : BuiltinPositionActuatorCfg :=
  { target_names_expr := ["l_ankle_x_joint"]
    stiffness := ELF3_ACTUATOR_ANKLE_X.stiffness
    damping := ELF3_ACTUATOR_ANKLE_X.damping
    effort_limit := ELF3_ACTUATOR_ANKLE_X.effort_limit
    armature := ELF3_ACTUATOR_ANKLE_X.armature }

def r_hip_y_joint : BuiltinPositionActuatorCfg :=
  { target_names_expr := ["r_hip_y_joint"]
    stiffness := ELF3_ACTUATOR_BXI85.stiffness
    damping := ELF3_ACTUATOR_BXI85.damping
    effort_limit := ELF3_ACTUATOR_BXI85.effort_limit
    armature := ELF3_ACTUATOR_BXI85.armature }

def r_hip_x_joint : BuiltinPositionActuatorCfg :=
  { target_names_expr := ["r_hip_x_joint"]
    stiffness := ELF3_ACTUATOR_BXI85.stiffness
    damping := ELF3_ACTUATOR_BXI85.damping
    effort_limit := ELF3_ACTUATOR_BXI85.effort_limit
    armature := ELF3_ACTUATOR_BXI85.armature }

def r_hip_z_joint : BuiltinPositionActuatorCfg :=
  { target_names_expr := ["r_hip_z_joint"]
    stiffness := ELF3_ACTUATOR_BXI70.stiffness
    damping := ELF3_ACTUATOR_BXI70.damping
    effort_limit := ELF3_ACTUATOR_BXI70.effort_limit
    armature := ELF3_ACTUATOR_BXI70.armature }

def r_knee_y_joint : BuiltinPositionActuatorCfg :=
  { target_names_expr := ["r_knee_y_joint"]
    stiffness := ELF3_ACTUATOR_BXI85.stiffness
    damping := ELF3_ACTUATOR_BXI85.damping
    effort_limit := ELF3_ACTUATOR_BXI85.effort_limit
    armature := ELF3_ACTUATOR_BXI85.armature }

def r_ankle_y_joint : BuiltinPositionActuatorCfg :=
  { target_names_expr := ["r_ankle_y_joint"]
    stiffness := ELF3_ACTUATOR_ANKLE_Y.stiffness
    damping := ELF3_ACTUATOR_ANKLE_Y.damping
    effort_limit := ELF3_ACTUATOR_ANKLE_Y.effort_limit
    armature := ELF3_ACTUATOR_ANKLE_Y.armature }

def r_ankle_x_joint : BuiltinPositionActuatorCfg :=
  { target_names_expr := ["r_ankle_x_joint"]
    stiffness := ELF3_ACTUATOR_ANKLE_X.stiffness
    damping := ELF3_ACTUATOR_ANKLE_X.damping
    effort_limit := ELF3_ACTUATOR_ANKLE_X.effort_limit
    armature := ELF3_ACTUATOR_ANKLE_X.armature }

def l_shoulder_y_joint : BuiltinPositionActuatorCfg :=
  { target_names_expr := ["l_shoulder_y_joint"]
    stiffness := ELF3_ACTUATOR_BXI70.stiffness
    damping := ELF3_ACTUATOR_BXI70.damping
    effort_limit := ELF3_ACTUATOR_BXI70.effort_limit
    armature := ELF3_ACTUATOR_BXI70.armature }

def l_shoulder_x_joint : BuiltinPositionActuatorCfg :=
  { target_names_expr := ["l_shoulder_x_joint"]
    stiffness := ELF3_ACTUATOR_BXI70.stiffness
    damping := ELF3_ACTUATOR_BXI70.damping
    effort_limit := ELF3_ACTUATOR_BXI70.effort_limit
    armature := ELF3_ACTUATOR_BXI70.armature }

def l_shoulder_z_joint : BuiltinPositionActuatorCfg :=
  { target_names_expr := ["l_shoulder_z_joint"]
    stiffness := ELF3_ACTUATOR_BXI50.stiffness
    damping := ELF3_ACTUATOR_BXI50.damping
    effort_limit := ELF3_ACTUATOR_BXI50.effort_limit
    armature := ELF3_ACTUATOR_BXI50.armature }

def l_elbow_y_joint : BuiltinPositionActuatorCfg :=
  { target_names_expr := ["l_elbow_y_joint"]
    stiffness := ELF3_ACTUATOR_BXI70.stiffness
    damping := ELF3_ACTUATOR_BXI70.damping
    effort_limit := ELF3_ACTUATOR_BXI70.effort_limit
    armature := ELF3_ACTUATOR_BXI70.armature }

def l_wrist_x_joint : BuiltinPositionActuatorCfg :=
  { target_names_expr := ["l_wrist_x_joint"]
    stiffness := ELF3_ACTUATOR_BXI50.stiffness
    damping := ELF3_ACTUATOR_BXI50.damping
    effort_limit := ELF3_ACTUATOR_BXI50.effort_limit
    armature := ELF3_ACTUATOR_BXI50.armature }

def l_wrist_y_joint : BuiltinPositionActuatorCfg :=
  { target_names_expr := ["l_wrist_y_joint"]
    stiffness := ELF3_ACTUATOR_BXI50.stiffness
    damping := ELF3_ACTUATOR_BXI50.damping
    effort_limit := ELF3_ACTUATOR_BXI50.effort_limit
    armature := ELF3_ACTUATOR_BXI50.armature }

def l_wrist_z_joint : BuiltinPositionActuatorCfg :=
  { target_names_expr := ["l_wrist_z_joint"]
    stiffness := ELF3_ACTUATOR_BXI50.stiffness
    damping := ELF3_ACTUATOR_BXI50.damping
    effort_limit := ELF3_ACTUATOR_BXI50.effort_limit
    armature := ELF3_ACTUATOR_BXI50.armature }

def r_shoulder_y_joint : BuiltinPositionActuatorCfg :=
  { target_names_expr := ["r_shoulder_y_joint"]
    stiffness := ELF3_ACTUATOR_BXI70.stiffness
    damping := ELF3_ACTUATOR_BXI70.damping
    effort_limit := ELF3_ACTUATOR_BXI70.effort_limit
    armature := ELF3_ACTUATOR_BXI70.armature }

def r_shoulder_x_joint : BuiltinPositionActuatorCfg :=
  { target_names_expr := ["r_shoulder_x_joint"]
    stiffness := ELF3_ACTUATOR_BXI70.stiffness
    damping := ELF3_ACTUATOR_BXI70.damping
    effort_limit := ELF3_ACTUATOR_BXI70.effort_limit
    armature := ELF3_ACTUATOR_BXI70.armature }

def r_shoulder_z_joint : BuiltinPositionActuatorCfg :=
  { target_names_expr := ["r_shoulder_z_joint"]
    stiffness := ELF3_ACTUATOR_BXI50.stiffness
    damping := ELF3_ACTUATOR_BXI50.damping
    effort_limit := ELF3_ACTUATOR_BXI50.effort_limit
    armature := ELF3_ACTUATOR_BXI50.armature }

def r_elbow_y_joint : BuiltinPositionActuatorCfg :=
  { target_names_expr := ["r_elbow_y_joint"]
    stiffness := ELF3_ACTUATOR_BXI70.stiffness
    damping := ELF3_ACTUATOR_BXI70.damping
    effort_limit := ELF3_ACTUATOR_BXI70.effort_limit
    armature := ELF3_ACTUATOR_BXI70.armature }

def r_wrist_x_joint : BuiltinPositionActuatorCfg :=
  { target_names_expr := ["r_wrist_x_joint"]
    stiffness := ELF3_ACTUATOR_BXI50.stiffness
    damping := ELF3_ACTUATOR_BXI50.damping
    effort_limit := ELF3_ACTUATOR_BXI50.effort_limit
    armature := ELF3_ACTUATOR_BXI50.armature }

def r_wrist_y_joint : BuiltinPositionActuatorCfg :=
  { target_names_expr := ["r_wrist_y_joint"]
    stiffness := ELF3_ACTUATOR_BXI50.stiffness
    damping := ELF3_ACTUATOR_BXI50.damping
    effort_limit := ELF3_ACTUATOR_BXI50.effort_limit
    armature := ELF3_ACTUATOR_BXI50.armature }

def r_wrist_z_joint : BuiltinPositionActuatorCfg :=
  { target_names_expr := ["r_wrist_z_joint"]
    stiffness := ELF3_ACTUATOR_BXI50.stiffness
    damping := ELF3_ACTUATOR_BXI50.damping
    effort_limit := ELF3_ACTUATOR_BXI50.effort_limit
    armature := ELF3_ACTUATOR_BXI50.armature }

/-- `ELF3_ARTICULATION_NEW` (`elf3_constants.py`, lines 533–566): the per-joint
configuration tuple, ordered as `joint_name_idx`. -/
def ELF3_ARTICULATION_NEW : EntityArticulationInfoCfg :=
  { actuators :=
      [ .builtinPosition waist_y_joint,
        .builtinPosition waist_x_joint,
        .builtinPosition waist_z_joint,
        .builtinPosition l_hip_y_joint,
        .builtinPosition l_hip_x_joint,
        .builtinPosition l_hip_z_joint,
        .builtinPosition l_knee_y_joint,
        .builtinPosition l_ankle_y_joint,
        .builtinPosition l_ankle_x_joint,
        .builtinPosition r_hip_y_joint,
        .builtinPosition r_hip_x_joint,
        .builtinPosition r_hip_z_joint,
        .builtinPosition r_knee_y_joint,
        .builtinPosition r_ankle_y_joint,
        .builtinPosition r_ankle_x_joint,
        .builtinPosition l_shoulder_y_joint,
        .builtinPosition l_shoulder_x_joint,
        .builtinPosition l_shoulder_z_joint,
        .builtinPosition l_elbow_y_joint,
        .builtinPosition l_wrist_x_joint,
        .builtinPosition l_wrist_y_joint,
        .builtinPosition l_wrist_z_joint,
        .builtinPosition r_shoulder_y_joint,
        .builtinPosition r_shoulder_x_joint,
        .builtinPosition r_shoulder_z_joint,
        .builtinPosition r_elbow_y_joint,
        .builtinPosition r_wrist_x_joint,
        .builtinPosition r_wrist_y_joint,
        .builtinPosition r_wrist_z_joint ]
    soft_joint_pos_limit_factor := 0.9 }

/-! ## Action-scale construction (`elf3_constants.py`, lines 583–591)

The Python loop mutates a module-level dict, asserting on each element that it
is a `BuiltinPositionActuatorCfg` with a non-`None` effort limit, and divides
by the stiffness (a zero stiffness would raise `ZeroDivisionError`).  The loop
body for one actuator, acting on the dict built so far, is `actionScaleStep`;
`none` models a raised exception. -/

def actionScaleStep (d : List (String × ℚ)) (a : ActuatorCfg) :
    Option (List (String × ℚ)) :=
  match a with
  | .other _ => none
  | .builtinPosition c =>
    match c.effort_limit with
    | none => none
    | some e =>
      if c.stiffness = 0 then none
      else
        some (c.target_names_expr.foldl
          (fun d n => pyInsert d n (0.25 * e / c.stiffness)) d)

/-- The whole `for a in ELF3_ARTICULATION_NEW.actuators:` loop starting from
dict `init`; `none` models a raised assertion or division error. -/
def buildActionScale (init : List (String × ℚ)) (actuators : List ActuatorCfg) :
    Option (List (String × ℚ)) :=
  actuators.foldlM actionScaleStep init

/-- `ELF3_ACTION_SCALE`: the table produced by the loop, starting from the
empty module-level dict.  (That the loop succeeds, i.e. that this `getD`
default is never taken, is proved separately.) -/
def ELF3_ACTION_SCALE : List (String × ℚ) :=
  (buildActionScale [] ELF3_ARTICULATION_NEW.actuators).getD []

/-- The mechanism's full joint-name list (`joint_name_idx`,
`elf3_constants.py` lines 250–280). -/
def ELF3_JOINT_NAMES : List String :=
  [ "waist_y_joint", "waist_x_joint", "waist_z_joint",
    "l_hip_y_joint", "l_hip_x_joint", "l_hip_z_joint", "l_knee_y_joint",
    "l_ankle_y_joint", "l_ankle_x_joint",
    "r_hip_y_joint", "r_hip_x_joint", "r_hip_z_joint", "r_knee_y_joint",
    "r_ankle_y_joint", "r_ankle_x_joint",
    "l_shoulder_y_joint", "l_shoulder_x_joint", "l_shoulder_z_joint",
    "l_elbow_y_joint", "l_wrist_x_joint", "l_wrist_y_joint", "l_wrist_z_joint",
    "r_shoulder_y_joint", "r_shoulder_x_joint", "r_shoulder_z_joint",
    "r_elbow_y_joint", "r_wrist_x_joint", "r_wrist_y_joint", "r_wrist_z_joint" ]

/-- The explicit value of `ELF3_ACTION_SCALE`: one entry per joint, in the
order the construction loop writes them, each value being the loop's
`0.25 * effort_limit / stiffness` for that joint's actuator. -/
def ELF3_ACTION_SCALE_TABLE : List (String × ℚ) :=
  [ ("waist_y_joint", 0.25 * 90 / (STIFFNESS_BXI70 * 2)),
    ("waist_x_joint", 0.25 * 100 / (STIFFNESS_BXI70 * 3)),
    ("waist_z_joint", 0.25 * 150.0 / STIFFNESS_BXI85),
    ("l_hip_y_joint", 0.25 * 150.0 / STIFFNESS_BXI85),
    ("l_hip_x_joint", 0.25 * 150.0 / STIFFNESS_BXI85),
    ("l_hip_z_joint", 0.25 * 45.0 / STIFFNESS_BXI70),
    ("l_knee_y_joint", 0.25 * 150.0 / STIFFNESS_BXI85),
    ("l_ankle_y_joint", 0.25 * 40 / (STIFFNESS_BXI50 * 2)),
    ("l_ankle_x_joint", 0.25 * 15 / 10.),
    ("r_hip_y_joint", 0.25 * 150.0 / STIFFNESS_BXI85),
    ("r_hip_x_joint", 0.25 * 150.0 / STIFFNESS_BXI85),
    ("r_hip_z_joint", 0.25 * 45.0 / STIFFNESS_BXI70),
    ("r_knee_y_joint", 0.25 * 150.0 / STIFFNESS_BXI85),
    ("r_ankle_y_joint", 0.25 * 40 / (STIFFNESS_BXI50 * 2)),
    ("r_ankle_x_joint", 0.25 * 15 / 10.),
    ("l_shoulder_y_joint", 0.25 * 45.0 / STIFFNESS_BXI70),
    ("l_shoulder_x_joint", 0.25 * 45.0 / STIFFNESS_BXI70),
    ("l_shoulder_z_joint", 0.25 * 21.0 / STIFFNESS_BXI50),
    ("l_elbow_y_joint", 0.25 * 45.0 / STIFFNESS_BXI70),
    ("l_wrist_x_joint", 0.25 * 21.0 / STIFFNESS_BXI50),
    ("l_wrist_y_joint", 0.25 * 21.0 / STIFFNESS_BXI50),
    ("l_wrist_z_joint", 0.25 * 21.0 / STIFFNESS_BXI50),
    ("r_shoulder_y_joint", 0.25 * 45.0 / STIFFNESS_BXI70),
    ("r_shoulder_x_joint", 0.25 * 45.0 / STIFFNESS_BXI70),
    ("r_shoulder_z_joint", 0.25 * 21.0 / STIFFNESS_BXI50),
    ("r_elbow_y_joint", 0.25 * 45.0 / STIFFNESS_BXI70),
    ("r_wrist_x_joint", 0.25 * 21.0 / STIFFNESS_BXI50),
    ("r_wrist_y_joint", 0.25 * 21.0 / STIFFNESS_BXI50),
    ("r_wrist_z_joint", 0.25 * 21.0 / STIFFNESS_BXI50) ]

theorem STIFFNESS_BXI50_ne_zero : STIFFNESS_BXI50 ≠ 0 := by
  unfold STIFFNESS_BXI50 ARMATURE_BXI50 reflected_inertia_from_two_stage_planetary
    ROTOR_INERTIAS_BXI50 GEARS_BXI50 NATURAL_FREQ
  norm_num

theorem STIFFNESS_BXI70_ne_zero : STIFFNESS_BXI70 ≠ 0 := by
  unfold STIFFNESS_BXI70 ARMATURE_BXI70 reflected_inertia_from_two_stage_planetary
    ROTOR_INERTIAS_BXI70 GEARS_BXI70 NATURAL_FREQ
  norm_num

theorem STIFFNESS_BXI85_ne_zero : STIFFNESS_BXI85 ≠ 0 := by
  unfold STIFFNESS_BXI85 ARMATURE_BXI85 reflected_inertia_from_two_stage_planetary
    ROTOR_INERTIAS_BXI85 GEARS_BXI85 NATURAL_FREQ
  norm_num

theorem S70x2_ne_zero : STIFFNESS_BXI70 * 2 ≠ 0 :=
  mul_ne_zero STIFFNESS_BXI70_ne_zero (by norm_num)

theorem S70x3_ne_zero : STIFFNESS_BXI70 * 3 ≠ 0 :=
  mul_ne_zero STIFFNESS_BXI70_ne_zero (by norm_num)

theorem S50x2_ne_zero : STIFFNESS_BXI50 * 2 ≠ 0 :=
  mul_ne_zero STIFFNESS_BXI50_ne_zero (by norm_num)

theorem ankle_x_stiffness_ne_zero : (10. : ℚ) ≠ 0 := by norm_num


/-- One iteration of the action-scale loop on a single-target actuator with a
present effort limit and nonzero stiffness: it inserts the scale for its one
target name. -/
theorem actionScaleStep_mk (d : List (String × ℚ)) (n : String) (s dp e a : ℚ) :
    s ≠ 0 →
    actionScaleStep d (.builtinPosition
      (BuiltinPositionActuatorCfg.mk [n] s dp (some e) a)) =
      some (pyInsert d n (0.25 * e / s)) := fun hs => by
  simp [actionScaleStep, hs]

set_option maxHeartbeats 1000000 in
/-- Evaluation of the whole action-scale loop, from the empty dict, to the
explicit table. -/
theorem buildActionScale_eval :
    buildActionScale [] ELF3_ARTICULATION_NEW.actuators =
      some ELF3_ACTION_SCALE_TABLE := by
  simp only [buildActionScale, ELF3_ARTICULATION_NEW, List.foldlM_cons, List.foldlM_nil,
    waist_y_joint, waist_x_joint, waist_z_joint, l_hip_y_joint, l_hip_x_joint,
    l_hip_z_joint, l_knee_y_joint, l_ankle_y_joint, l_ankle_x_joint,
    r_hip_y_joint, r_hip_x_joint, r_hip_z_joint, r_knee_y_joint,
    r_ankle_y_joint, r_ankle_x_joint, l_shoulder_y_joint, l_shoulder_x_joint,
    l_shoulder_z_joint, l_elbow_y_joint, l_wrist_x_joint, l_wrist_y_joint,
    l_wrist_z_joint, r_shoulder_y_joint, r_shoulder_x_joint, r_shoulder_z_joint,
    r_elbow_y_joint, r_wrist_x_joint, r_wrist_y_joint, r_wrist_z_joint,
    ELF3_ACTUATOR_BXI50, ELF3_ACTUATOR_BXI70, ELF3_ACTUATOR_BXI85,
    ELF3_ACTUATOR_WAIST_Y, ELF3_ACTUATOR_WAIST_X, ELF3_ACTUATOR_ANKLE_Y,
    ELF3_ACTUATOR_ANKLE_X, ACTUATOR_BXI50, ACTUATOR_BXI70, ACTUATOR_BXI85,
    actionScaleStep_mk, ne_eq,
    STIFFNESS_BXI50_ne_zero, STIFFNESS_BXI70_ne_zero, STIFFNESS_BXI85_ne_zero,
    S70x2_ne_zero, S70x3_ne_zero, S50x2_ne_zero, ankle_x_stiffness_ne_zero,
    not_false_eq_true, Option.bind_eq_bind, Option.some_bind]
  rfl

/-- `ELF3_ACTION_SCALE` equals the explicit table. -/
theorem ELF3_ACTION_SCALE_eq : ELF3_ACTION_SCALE = ELF3_ACTION_SCALE_TABLE := by
  rw [ELF3_ACTION_SCALE, buildActionScale_eval]
  rfl

/-! ## Claim theorems -/

/-- C1: for every actuator configuration in `ELF3_ARTICULATION_NEW.actuators`
and every name `n` in that actuator's `target_names_expr`, the constructed
table satisfies `ELF3_ACTION_SCALE[n] = 0.25 * effort_limit / stiffness`
with that actuator's resolved parameters. -/
theorem elf3_action_scale_entries :
    ∀ c : BuiltinPositionActuatorCfg,
      ActuatorCfg.builtinPosition c ∈ ELF3_ARTICULATION_NEW.actuators →
      ∀ e : ℚ, c.effort_limit = some e →
      ∀ n ∈ c.target_names_expr,
        pyLookup ELF3_ACTION_SCALE n = some (0.25 * e / c.stiffness) := by
  intro c hc e he n hn
  rw [ELF3_ACTION_SCALE_eq]
  simp only [ELF3_ARTICULATION_NEW, List.mem_cons, List.not_mem_nil, or_false,
    ActuatorCfg.builtinPosition.injEq] at hc
  rcases hc with rfl|rfl|rfl|rfl|rfl|rfl|rfl|rfl|rfl|rfl|rfl|rfl|rfl|rfl|rfl|rfl|rfl|rfl|rfl|rfl|rfl|rfl|rfl|rfl|rfl|rfl|rfl|rfl|rfl <;>
  · obtain rfl := List.mem_singleton.mp hn
    obtain rfl := Option.some.inj he
    rfl

/-- Witness for C1: the table entry for `waist_y_joint`. -/
theorem elf3_action_scale_entries_witness :
    pyLookup ELF3_ACTION_SCALE "waist_y_joint" =
      some (0.25 * 90 / waist_y_joint.stiffness) :=
  elf3_action_scale_entries waist_y_joint (List.mem_cons_self _ _) 90 rfl
    "waist_y_joint" (List.mem_singleton.mpr rfl)

/-- C2: the key set of the constructed `ELF3_ACTION_SCALE` mapping equals
exactly the mechanism's full 29-joint name set — no mechanism joint is
missing a scale entry, and no key lies outside that joint set. -/
theorem elf3_action_scale_keys :
    ∀ n : String,
      n ∈ ELF3_ACTION_SCALE.map Prod.fst ↔ n ∈ ELF3_JOINT_NAMES := by
  have h : ELF3_ACTION_SCALE.map Prod.fst = ELF3_JOINT_NAMES := by
    rw [ELF3_ACTION_SCALE_eq]; rfl
  intro n
  rw [h]

/-- C3: each class's armature, as computed by
`reflected_inertia_from_two_stage_planetary` from the three rotor inertias
and gear ratios `(1, r, r)` with `r = 1 + 65/19`, equals
`I1/1² + I2/r² + I3/(r²)²` — each stage's rotor inertia divided by the
square of the cumulative gear ratio up to and including that stage. -/
theorem armature_reflected_inertia_formula :
    ARMATURE_BXI50 =
      (0.0760e-4 + 0.0300e-4) / 1 ^ 2 + 0.0892e-4 / (1 + 65 / 19) ^ 2 +
        0.1807e-4 / ((1 + 65 / 19) ^ 2) ^ 2 ∧
    ARMATURE_BXI70 =
      (0.2620e-4 + 0.0802e-4) / 1 ^ 2 + 0.3099e-4 / (1 + 65 / 19) ^ 2 +
        0.5617e-4 / ((1 + 65 / 19) ^ 2) ^ 2 ∧
    ARMATURE_BXI85 =
      (0.8590e-4 + 0.2683e-4) / 1 ^ 2 + 0.7604e-4 / (1 + 65 / 19) ^ 2 +
        1.3499e-4 / ((1 + 65 / 19) ^ 2) ^ 2 := by
  refine ⟨?_, ?_, ?_⟩ <;>
    norm_num [ARMATURE_BXI50, ARMATURE_BXI70, ARMATURE_BXI85,
      reflected_inertia_from_two_stage_planetary,
      ROTOR_INERTIAS_BXI50, ROTOR_INERTIAS_BXI70, ROTOR_INERTIAS_BXI85,
      GEARS_BXI50, GEARS_BXI70, GEARS_BXI85]

/-- C4: the derived gains satisfy exactly
`STIFFNESS_BXIxx = ARMATURE_BXIxx * ω²` and
`DAMPING_BXIxx = 2 * ζ * ARMATURE_BXIxx * ω`, with the configured natural
frequency `ω = 20 * 3.1415926535` (the code's rational approximation of
20π rad/s, i.e. 10 Hz) and damping ratio `ζ = 2`. -/
theorem gain_synthesis_relations :
    STIFFNESS_BXI50 = ARMATURE_BXI50 * NATURAL_FREQ ^ 2 ∧
    STIFFNESS_BXI70 = ARMATURE_BXI70 * NATURAL_FREQ ^ 2 ∧
    STIFFNESS_BXI85 = ARMATURE_BXI85 * NATURAL_FREQ ^ 2 ∧
    DAMPING_BXI50 = 2 * DAMPING_RATIO * ARMATURE_BXI50 * NATURAL_FREQ ∧
    DAMPING_BXI70 = 2 * DAMPING_RATIO * ARMATURE_BXI70 * NATURAL_FREQ ∧
    DAMPING_BXI85 = 2 * DAMPING_RATIO * ARMATURE_BXI85 * NATURAL_FREQ ∧
    NATURAL_FREQ = 20 * 3.1415926535 ∧ DAMPING_RATIO = 2 := by
  refine ⟨rfl, rfl, rfl, ?_, ?_, ?_, ?_, ?_⟩ <;>
    norm_num [DAMPING_BXI50, DAMPING_BXI70, DAMPING_BXI85, DAMPING_RATIO,
      NATURAL_FREQ]

/-- A binding's stiffness, damping, and armature all equal the base values
pre-scaled by one and the same integer multiplier. -/
def scaledByIntegerMultiplier (c : BuiltinPositionActuatorCfg)
    (s d a : ℚ) : Prop :=
  ∃ m : ℤ, c.stiffness = s * m ∧ c.damping = d * m ∧ c.armature = a * m

theorem ARMATURE_BXI50_ne_zero : ARMATURE_BXI50 ≠ 0 := by
  unfold ARMATURE_BXI50 reflected_inertia_from_two_stage_planetary
    ROTOR_INERTIAS_BXI50 GEARS_BXI50
  norm_num

/-- C5 counterexample: the ankle-x binding is NOT the base BXI50 values
scaled by one common integer multiplier — its armature factor is 1.3, which
is not an integer. -/
theorem ankle_x_not_uniform_multiplier :
    ¬ scaledByIntegerMultiplier ELF3_ACTUATOR_ANKLE_X
        STIFFNESS_BXI50 DAMPING_BXI50 ARMATURE_BXI50 := by
  rintro ⟨m, -, -, ha⟩
  have h1 : ARMATURE_BXI50 * 1.3 = ARMATURE_BXI50 * (m : ℚ) := ha
  have h2 : (1.3 : ℚ) = (m : ℚ) := mul_left_cancel₀ ARMATURE_BXI50_ne_zero h1
  have h3 : (10 : ℚ) * (m : ℚ) = 13 := by rw [← h2]; norm_num
  have h4 : (10 * m : ℤ) = 13 := by exact_mod_cast h3
  omega

/-- C5 amended: the waist-y, waist-x, and ankle-y parallel-linkage bindings
are the base BXI70/BXI70/BXI50 values scaled by one and the same integer
multiplier (2, 3, and 2 respectively); the ankle-x binding instead has
hard-coded stiffness 10.0 and damping 1.0 and its armature scaled by the
non-integer factor 1.3. -/
theorem parallel_linkage_prescaling :
    scaledByIntegerMultiplier ELF3_ACTUATOR_WAIST_Y
      STIFFNESS_BXI70 DAMPING_BXI70 ARMATURE_BXI70 ∧
    scaledByIntegerMultiplier ELF3_ACTUATOR_WAIST_X
      STIFFNESS_BXI70 DAMPING_BXI70 ARMATURE_BXI70 ∧
    scaledByIntegerMultiplier ELF3_ACTUATOR_ANKLE_Y
      STIFFNESS_BXI50 DAMPING_BXI50 ARMATURE_BXI50 ∧
    (ELF3_ACTUATOR_ANKLE_X.stiffness = 10 ∧
     ELF3_ACTUATOR_ANKLE_X.damping = 1 ∧
     ELF3_ACTUATOR_ANKLE_X.armature = ARMATURE_BXI50 * 1.3) := by
  refine ⟨⟨2, ?_, ?_, ?_⟩, ⟨3, ?_, ?_, ?_⟩, ⟨2, ?_, ?_, ?_⟩, ?_, ?_, rfl⟩ <;>
    norm_num [ELF3_ACTUATOR_WAIST_Y, ELF3_ACTUATOR_WAIST_X,
      ELF3_ACTUATOR_ANKLE_Y, ELF3_ACTUATOR_ANKLE_X,
      ACTUATOR_BXI50, ACTUATOR_BXI70]

/-- C6: the three actuator classes' armatures are strictly ordered
`ARMATURE_BXI50 < ARMATURE_BXI70 < ARMATURE_BXI85`, and under the shared
gain target the derived stiffness values preserve that ordering. -/
theorem armature_stiffness_ordering :
    ARMATURE_BXI50 < ARMATURE_BXI70 ∧ ARMATURE_BXI70 < ARMATURE_BXI85 ∧
    STIFFNESS_BXI50 < STIFFNESS_BXI70 ∧ STIFFNESS_BXI70 < STIFFNESS_BXI85 := by
  refine ⟨?_, ?_, ?_, ?_⟩ <;>
    norm_num [STIFFNESS_BXI50, STIFFNESS_BXI70, STIFFNESS_BXI85,
      ARMATURE_BXI50, ARMATURE_BXI70, ARMATURE_BXI85,
      reflected_inertia_from_two_stage_planetary,
      ROTOR_INERTIAS_BXI50, ROTOR_INERTIAS_BXI70, ROTOR_INERTIAS_BXI85,
      GEARS_BXI50, GEARS_BXI70, GEARS_BXI85, NATURAL_FREQ]

/-- C7: every value stored in `ELF3_ACTION_SCALE` is strictly positive. -/
theorem elf3_action_scale_positive :
    ∀ p ∈ ELF3_ACTION_SCALE, 0 < p.2 := by
  rw [ELF3_ACTION_SCALE_eq]
  intro p hp
  simp only [ELF3_ACTION_SCALE_TABLE] at hp
  fin_cases hp <;>
    norm_num [STIFFNESS_BXI50, STIFFNESS_BXI70, STIFFNESS_BXI85,
      ARMATURE_BXI50, ARMATURE_BXI70, ARMATURE_BXI85,
      reflected_inertia_from_two_stage_planetary,
      ROTOR_INERTIAS_BXI50, ROTOR_INERTIAS_BXI70, ROTOR_INERTIAS_BXI85,
      GEARS_BXI50, GEARS_BXI70, GEARS_BXI85, NATURAL_FREQ]

/-- Witness for C7: the entry for `waist_y_joint` is positive. -/
theorem elf3_action_scale_positive_witness :
    (0 : ℚ) < 0.25 * 90 / (STIFFNESS_BXI70 * 2) :=
  elf3_action_scale_positive
    ("waist_y_joint", 0.25 * 90 / (STIFFNESS_BXI70 * 2))
    (by rw [ELF3_ACTION_SCALE_eq]; exact List.mem_cons_self _ _)

set_option maxHeartbeats 1000000 in
/-- C8: the action-scale construction loop is deterministic and idempotent —
re-running the loop over the same ordered actuator tuple, starting from the
already-populated module-level dict, reproduces exactly the same mapping
(same key list, identical values), and the entries stand in the explicit
list order of the actuators (the concatenation of their target names), not
any internal indexing order. -/
theorem action_scale_construction_idempotent :
    buildActionScale ELF3_ACTION_SCALE ELF3_ARTICULATION_NEW.actuators =
      some ELF3_ACTION_SCALE ∧
    ELF3_ACTION_SCALE.map Prod.fst =
      (ELF3_ARTICULATION_NEW.actuators.flatMap fun a =>
        match a with
        | .builtinPosition c => c.target_names_expr
        | .other _ => []) := by
  constructor
  · rw [ELF3_ACTION_SCALE_eq]
    simp only [buildActionScale, ELF3_ARTICULATION_NEW, List.foldlM_cons,
      List.foldlM_nil,
      waist_y_joint, waist_x_joint, waist_z_joint, l_hip_y_joint, l_hip_x_joint,
      l_hip_z_joint, l_knee_y_joint, l_ankle_y_joint, l_ankle_x_joint,
      r_hip_y_joint, r_hip_x_joint, r_hip_z_joint, r_knee_y_joint,
      r_ankle_y_joint, r_ankle_x_joint, l_shoulder_y_joint, l_shoulder_x_joint,
      l_shoulder_z_joint, l_elbow_y_joint, l_wrist_x_joint, l_wrist_y_joint,
      l_wrist_z_joint, r_shoulder_y_joint, r_shoulder_x_joint, r_shoulder_z_joint,
      r_elbow_y_joint, r_wrist_x_joint, r_wrist_y_joint, r_wrist_z_joint,
      ELF3_ACTUATOR_BXI50, ELF3_ACTUATOR_BXI70, ELF3_ACTUATOR_BXI85,
      ELF3_ACTUATOR_WAIST_Y, ELF3_ACTUATOR_WAIST_X, ELF3_ACTUATOR_ANKLE_Y,
      ELF3_ACTUATOR_ANKLE_X, ACTUATOR_BXI50, ACTUATOR_BXI70, ACTUATOR_BXI85,
      actionScaleStep_mk, ne_eq,
      STIFFNESS_BXI50_ne_zero, STIFFNESS_BXI70_ne_zero, STIFFNESS_BXI85_ne_zero,
      S70x2_ne_zero, S70x3_ne_zero, S50x2_ne_zero, ankle_x_stiffness_ne_zero,
      not_false_eq_true, Option.bind_eq_bind, Option.some_bind]
    rfl
  · rw [ELF3_ACTION_SCALE_eq]
    rfl

/-- C10: the action-scale loop is total over `ELF3_ARTICULATION_NEW` — every
element of the actuator tuple is a `BuiltinPositionActuatorCfg` with a
non-`None` effort limit and nonzero stiffness (so both assertions and the
division succeed), and the whole loop produces a table rather than raising. -/
theorem action_scale_loop_total :
    (∀ a ∈ ELF3_ARTICULATION_NEW.actuators,
      ∃ c, a = ActuatorCfg.builtinPosition c ∧
        c.effort_limit ≠ none ∧ c.stiffness ≠ 0) ∧
    (buildActionScale [] ELF3_ARTICULATION_NEW.actuators).isSome := by
  refine ⟨?_, by rw [buildActionScale_eval]; rfl⟩
  intro a ha
  simp only [ELF3_ARTICULATION_NEW] at ha
  fin_cases ha <;>
    first
      | exact ⟨_, rfl, Option.some_ne_none _, S70x2_ne_zero⟩
      | exact ⟨_, rfl, Option.some_ne_none _, S70x3_ne_zero⟩
      | exact ⟨_, rfl, Option.some_ne_none _, STIFFNESS_BXI85_ne_zero⟩
      | exact ⟨_, rfl, Option.some_ne_none _, STIFFNESS_BXI70_ne_zero⟩
      | exact ⟨_, rfl, Option.some_ne_none _, STIFFNESS_BXI50_ne_zero⟩
      | exact ⟨_, rfl, Option.some_ne_none _, S50x2_ne_zero⟩
      | exact ⟨_, rfl, Option.some_ne_none _, ankle_x_stiffness_ne_zero⟩

/-- Witness for C10: the first actuator of the tuple is a
`BuiltinPositionActuatorCfg` with present effort limit and nonzero
stiffness. -/
theorem action_scale_loop_total_witness :
    ∃ c, ActuatorCfg.builtinPosition waist_y_joint =
        ActuatorCfg.builtinPosition c ∧
      c.effort_limit ≠ none ∧ c.stiffness ≠ 0 :=
  action_scale_loop_total.1 _ (List.mem_cons_self _ _)

/-! ## Velocity environment configuration model (`env_cfgs.py`)

The configuration record mirrors every field path that
`bxi_elf3_rough_env_cfg` / `bxi_elf3_flat_env_cfg` read or write; every part
of the configuration the two functions never touch is collected in opaque
`...Rest` components, so that "unchanged" is expressible for them.  The base
configuration produced by `make_velocity_env_cfg` (whose source is outside
the repository slice) is a parameter: the theorems quantify over it. -/

structure AssetRefCfg where
  body_names : List String
  site_names : List String
  geom_names : List String
deriving DecidableEq

/-- A value stored in a term's `params` dict: the shapes `env_cfgs.py`
stores there. -/
inductive ParamValue
  | assetRef (a : AssetRefCfg)
  | stdMap (m : List (String × ℚ))
  | strVal (s : String)
deriving DecidableEq

/-- `params["asset_cfg"].site_names = ns` on a params value. -/
def ParamValue.setSiteNames (v : ParamValue) (ns : List String) : ParamValue :=
  match v with
  | .assetRef a => .assetRef { a with site_names := ns }
  | v => v

/-- `params["asset_cfg"].geom_names = ns` on a params value. -/
def ParamValue.setGeomNames (v : ParamValue) (ns : List String) : ParamValue :=
  match v with
  | .assetRef a => .assetRef { a with geom_names := ns }
  | v => v

/-- `params["asset_cfg"].body_names = ns` on a params value. -/
def ParamValue.setBodyNames (v : ParamValue) (ns : List String) : ParamValue :=
  match v with
  | .assetRef a => .assetRef { a with body_names := ns }
  | v => v

structure MujocoCfg where
  ccd_iterations : Nat
  mujocoRest : Nat
deriving DecidableEq

structure SimulationCfg where
  njmax : Option Nat
  mujoco : MujocoCfg
  contact_sensor_maxmatch : Nat
  nconmax : Option Nat
  simRest : Nat
deriving DecidableEq

structure TerrainGeneratorCfg where
  curriculum : Bool
  num_cols : Nat
  num_rows : Nat
  border_width : ℚ
  generatorRest : Nat
deriving DecidableEq

structure TerrainCfg where
  terrain_type : String
  terrain_generator : Option TerrainGeneratorCfg
  terrainRest : Nat
deriving DecidableEq

structure ContactMatch where
  mode : String
  pattern : String
  entity : Option String
deriving DecidableEq

structure ContactSensorCfg where
  name : String
  primary : ContactMatch
  secondary : ContactMatch
  fields : List String
  reduce : String
  num_slots : Nat
  track_air_time : Bool
deriving DecidableEq

/-- `EntityCfg` as built by `get_elf3_robot_cfg` (`elf3_constants.py`): the
keyframe and collision configs are abstracted to tags (no claim concerns
their contents), the articulation is the embedded one. -/
structure EntityCfg where
  init_state : String
  collisions : List String
  articulation : EntityArticulationInfoCfg
deriving DecidableEq

def get_elf3_robot_cfg : EntityCfg :=
  { init_state := "KNEES_BENT_KEYFRAME"
    collisions := ["FULL_COLLISION"]
    articulation := ELF3_ARTICULATION_NEW }

structure SceneCfg where
  entities : List (String × EntityCfg)
  terrain : Option TerrainCfg
  sensors : List ContactSensorCfg
  sceneRest : Nat
deriving DecidableEq

structure ViewerCfg where
  body_name : Option String
  viewerRest : Nat
deriving DecidableEq

structure VizCfg where
  z_offset : ℚ
  vizRest : Nat
deriving DecidableEq

structure RangesCfg where
  lin_vel_x : ℚ × ℚ
  ang_vel_z : ℚ × ℚ
  rangesRest : Nat
deriving DecidableEq

structure UniformVelocityCommandCfg where
  viz : VizCfg
  ranges : RangesCfg
  commandRest : Nat
deriving DecidableEq

structure ObsTermCfg where
  params : List (String × ParamValue)
  obsTermRest : Nat
deriving DecidableEq

structure ObsGroupCfg where
  enable_corruption : Bool
  terms : List (String × ObsTermCfg)
  obsGroupRest : Nat
deriving DecidableEq

structure JointPositionActionCfg where
  scale : List (String × ℚ)
  actionRest : Nat
deriving DecidableEq

structure EventTermCfg where
  func : String
  mode : String
  params : List (String × ParamValue)
deriving DecidableEq

structure RewardTermCfg where
  func : String
  weight : ℚ
  params : List (String × ParamValue)
deriving DecidableEq

structure ManagerBasedRlEnvCfg where
  episode_length_s : ℚ
  sim : SimulationCfg
  scene : SceneCfg
  viewer : ViewerCfg
  commands : List (String × UniformVelocityCommandCfg)
  observations : List (String × ObsGroupCfg)
  actions : List (String × JointPositionActionCfg)
  events : List (String × EventTermCfg)
  rewards : List (String × RewardTermCfg)
  curriculum : List (String × String)
  cfgRest : Nat
deriving DecidableEq

def site_names : List String := ["l_foot", "r_foot"]

def geom_names : List String :=
  ["l", "r"].flatMap fun side =>
    (List.range 7).map fun i => side ++ "_foot" ++ toString (i + 1) ++ "_collision"

def feet_ground_cfg : ContactSensorCfg :=
  { name := "feet_ground_contact"
    primary := { mode := "subtree"
                 pattern := "^(l_ankle_x_link|r_ankle_x_link)$"
                 entity := some "robot" }
    secondary := { mode := "body", pattern := "terrain", entity := none }
    fields := ["found", "force"]
    reduce := "netforce"
    num_slots := 1
    track_air_time := true }

def self_collision_cfg : ContactSensorCfg :=
  { name := "self_collision"
    primary := { mode := "subtree", pattern := "torso_link", entity := some "robot" }
    secondary := { mode := "subtree", pattern := "torso_link", entity := some "robot" }
    fields := ["found"]
    reduce := "none"
    num_slots := 1
    track_air_time := false }

/-- The block `if cfg.scene.terrain is not None and
cfg.scene.terrain.terrain_generator is not None:
cfg.scene.terrain.terrain_generator.curriculum = True` of
`bxi_elf3_rough_env_cfg`. -/
def enable_terrain_curriculum (cfg : ManagerBasedRlEnvCfg) :
    ManagerBasedRlEnvCfg :=
  match cfg.scene.terrain with
  | some t =>
    match t.terrain_generator with
    | some g => { cfg with
        scene := { cfg.scene with
          terrain := some ({ t with
            terrain_generator := some ({ g with curriculum := true }) }) } }
    | none => cfg
  | none => cfg

/-- The play-mode terrain-generator block of `bxi_elf3_rough_env_cfg`:
disable the curriculum and shrink the generated grid. -/
def play_terrain_overrides (cfg : ManagerBasedRlEnvCfg) :
    ManagerBasedRlEnvCfg :=
  match cfg.scene.terrain with
  | some t =>
    match t.terrain_generator with
    | some g => { cfg with
        scene := { cfg.scene with
          terrain := some ({ t with
            terrain_generator := some ({ g with
              curriculum := false
              num_cols := 5
              num_rows := 5
              border_width := 10.0 }) }) } }
    | none => cfg
  | none => cfg

/-- The `if play:` suite of `bxi_elf3_rough_env_cfg` (`env_cfgs.py`,
lines 150–167). -/
def rough_play_overrides (cfg : ManagerBasedRlEnvCfg) :
    ManagerBasedRlEnvCfg :=
  let cfg := { cfg with episode_length_s := 1000000000 }
  let cfg := { cfg with
    observations := updAt cfg.observations "policy" fun g =>
      { g with enable_corruption := false } }
  let cfg := { cfg with events := pyDel cfg.events "push_robot" }
  let cfg := { cfg with
    events := pyInsert cfg.events "randomize_terrain"
      { func := "randomize_terrain", mode := "reset", params := [] } }
  play_terrain_overrides cfg

/-- `bxi_elf3_rough_env_cfg` (`env_cfgs.py`, lines 18–169).  The base
configuration `cfg0` stands for the result of `make_velocity_env_cfg()`,
whose source is outside the repository slice; the function is the sequence
of mutations the Python code applies to it, with the two
terrain-conditional blocks factored into the helper functions above. -/
def bxi_elf3_rough_env_cfg (play : Bool) (cfg0 : ManagerBasedRlEnvCfg) :
    ManagerBasedRlEnvCfg :=
  let cfg := { cfg0 with
    sim := { cfg0.sim with
      mujoco := { cfg0.sim.mujoco with ccd_iterations := 500 }
      contact_sensor_maxmatch := 500
      nconmax := some 45 } }
  let cfg := { cfg with
    scene := { cfg.scene with entities := [("robot", get_elf3_robot_cfg)] } }
  let cfg := { cfg with
    scene := { cfg.scene with sensors := [feet_ground_cfg, self_collision_cfg] } }
  let cfg := enable_terrain_curriculum cfg
  let cfg := { cfg with
    actions := updAt cfg.actions "joint_pos" fun a =>
      { a with scale := ELF3_ACTION_SCALE } }
  let cfg := { cfg with
    viewer := { cfg.viewer with body_name := some "torso_link" } }
  let cfg := { cfg with
    commands := updAt cfg.commands "twist" fun tc =>
      { tc with viz := { tc.viz with z_offset := 1.15 } } }
  let cfg := { cfg with
    observations := updAt cfg.observations "critic" fun g =>
      { g with terms := updAt g.terms "foot_height" fun t =>
        { t with params := updAt t.params "asset_cfg" fun v =>
          v.setSiteNames site_names } } }
  let cfg := { cfg with
    events := updAt cfg.events "foot_friction" fun t =>
      { t with params := updAt t.params "asset_cfg" fun v =>
        v.setGeomNames geom_names } }
  let cfg := { cfg with
    events := updAt cfg.events "base_com" fun t =>
      { t with params := updAt t.params "asset_cfg" fun v =>
        v.setBodyNames ["torso_link"] } }
  let cfg := { cfg with
    rewards := updAt cfg.rewards "pose" fun t =>
      { t with params := pyInsert t.params "std_standing" (ParamValue.stdMap
        [ (".*hip_y.*", 0.3), (".*hip_x.*", 0.05), (".*hip_z.*", 0.05),
          (".*knee.*", 0.05), (".*ankle_y.*", 0.35), (".*ankle_x.*", 0.05),
          (".*waist_z.*", 0.05), (".*waist_x.*", 0.05), (".*waist_y.*", 0.1),
          (".*shoulder_y.*", 0.05), (".*shoulder_x.*", 0.05),
          (".*shoulder_z.*", 0.05), (".*elbow.*", 0.05), (".*wrist.*", 0.05) ]) } }
  let cfg := { cfg with
    rewards := updAt cfg.rewards "pose" fun t =>
      { t with params := pyInsert t.params "std_walking" (ParamValue.stdMap
        [ (".*hip_y.*", 0.3), (".*hip_x.*", 0.15), (".*hip_z.*", 0.15),
          (".*knee.*", 0.35), (".*ankle_y.*", 0.25), (".*ankle_x.*", 0.1),
          (".*waist_z.*", 0.2), (".*waist_x.*", 0.08), (".*waist_y.*", 0.1),
          (".*shoulder_y.*", 0.15), (".*shoulder_x.*", 0.15),
          (".*shoulder_z.*", 0.1), (".*elbow.*", 0.15), (".*wrist.*", 0.3) ]) } }
  let cfg := { cfg with
    rewards := updAt cfg.rewards "pose" fun t =>
      { t with params := pyInsert t.params "std_running" (ParamValue.stdMap
        [ (".*hip_y.*", 0.5), (".*hip_x.*", 0.2), (".*hip_z.*", 0.2),
          (".*knee.*", 0.6), (".*ankle_y.*", 0.35), (".*ankle_x.*", 0.15),
          (".*waist_z.*", 0.3), (".*waist_x.*", 0.08), (".*waist_y.*", 0.2),
          (".*shoulder_y.*", 0.5), (".*shoulder_x.*", 0.2),
          (".*shoulder_z.*", 0.15), (".*elbow.*", 0.35), (".*wrist.*", 0.3) ]) } }
  let cfg := { cfg with
    rewards := updAt cfg.rewards "upright" fun t =>
      { t with params := updAt t.params "asset_cfg" fun v =>
        v.setBodyNames ["torso_link"] } }
  let cfg := { cfg with
    rewards := updAt cfg.rewards "body_ang_vel" fun t =>
      { t with params := updAt t.params "asset_cfg" fun v =>
        v.setBodyNames ["torso_link"] } }
  let cfg := ["foot_clearance", "foot_swing_height", "foot_slip"].foldl
    (fun cfg reward_name =>
      { cfg with
        rewards := updAt cfg.rewards reward_name fun t =>
          { t with params := updAt t.params "asset_cfg" fun v =>
            v.setSiteNames site_names } })
    cfg
  let cfg := { cfg with
    rewards := updAt cfg.rewards "body_ang_vel" fun t => { t with weight := -0.05 } }
  let cfg := { cfg with
    rewards := updAt cfg.rewards "angular_momentum" fun t => { t with weight := -0.02 } }
  let cfg := { cfg with
    rewards := updAt cfg.rewards "air_time" fun t => { t with weight := 0.2 } }
  let cfg := { cfg with
    rewards := pyInsert cfg.rewards "self_collisions"
      { func := "self_collision_cost", weight := -1.0,
        params := [("sensor_name", ParamValue.strVal self_collision_cfg.name)] } }
  if play then rough_play_overrides cfg else cfg

/-- The sim-limit overrides of `bxi_elf3_flat_env_cfg`. -/
def flat_sim_overrides (cfg : ManagerBasedRlEnvCfg) : ManagerBasedRlEnvCfg :=
  { cfg with
    sim := { cfg.sim with
      njmax := some 300
      mujoco := { cfg.sim.mujoco with ccd_iterations := 50 }
      contact_sensor_maxmatch := 64
      nconmax := none } }

/-- `assert cfg.scene.terrain is not None` followed by the switch to flat
terrain: `none` models the failed assertion. -/
def flat_terrain_override (cfg : ManagerBasedRlEnvCfg) :
    Option ManagerBasedRlEnvCfg :=
  match cfg.scene.terrain with
  | none => none
  | some t =>
    some { cfg with
      scene := { cfg.scene with
        terrain := some ({ t with
          terrain_type := "plane"
          terrain_generator := none }) } }

/-- The play-mode twist-command override of `bxi_elf3_flat_env_cfg`. -/
def flat_play_overrides (cfg : ManagerBasedRlEnvCfg) : ManagerBasedRlEnvCfg :=
  { cfg with
    commands := updAt cfg.commands "twist" fun tc =>
      { tc with
        ranges := { tc.ranges with
          lin_vel_x := (-1.5, 2.0)
          ang_vel_z := (-0.7, 0.7) } } }

/-- `bxi_elf3_flat_env_cfg` (`env_cfgs.py`, lines 172–196): calls the rough
configuration, overrides the sim limits, switches to flat terrain, deletes
the terrain curriculum, and in play mode narrows the twist command ranges.
`none` models a failed `assert` (terrain absent, or no `terrain_levels`
curriculum entry). -/
def bxi_elf3_flat_env_cfg (play : Bool) (cfg0 : ManagerBasedRlEnvCfg) :
    Option ManagerBasedRlEnvCfg :=
  let cfg := bxi_elf3_rough_env_cfg play cfg0
  let cfg := flat_sim_overrides cfg
  match flat_terrain_override cfg with
  | none => none
  | some cfg =>
    if cfg.curriculum.any (fun p => p.1 = "terrain_levels") then
      let cfg := { cfg with curriculum := pyDel cfg.curriculum "terrain_levels" }
      some (if play then flat_play_overrides cfg else cfg)
    else none

set_option maxHeartbeats 1000000 in
/-- C9: for every value of the `play` flag (and every base configuration on
which the two assertions of the flat function succeed),
`bxi_elf3_flat_env_cfg play` returns the configuration produced by
`bxi_elf3_rough_env_cfg play` changed only in: `sim.njmax`,
`sim.mujoco.ccd_iterations`, `sim.contact_sensor_maxmatch`, `sim.nconmax`,
`scene.terrain.terrain_type` (set to `"plane"`),
`scene.terrain.terrain_generator` (set to `none`), removal of the
`"terrain_levels"` curriculum entry, and — when `play` is true — the twist
command's `lin_vel_x` and `ang_vel_z` ranges; every other field is the
rough configuration's, unchanged. -/
theorem flat_env_cfg_frame (play : Bool) (cfg0 : ManagerBasedRlEnvCfg)
    (t : TerrainCfg)
    (ht : (bxi_elf3_rough_env_cfg play cfg0).scene.terrain = some t)
    (hc : ((bxi_elf3_rough_env_cfg play cfg0).curriculum.any
      (fun p => p.1 = "terrain_levels")) = true) :
    bxi_elf3_flat_env_cfg play cfg0 =
      some (
        let r := bxi_elf3_rough_env_cfg play cfg0
        let r1 : ManagerBasedRlEnvCfg := { r with
          sim := { r.sim with
            njmax := some 300
            mujoco := { r.sim.mujoco with ccd_iterations := 50 }
            contact_sensor_maxmatch := 64
            nconmax := none }
          scene := { r.scene with
            terrain := some ({ t with
              terrain_type := "plane"
              terrain_generator := none }) }
          curriculum := pyDel r.curriculum "terrain_levels" }
        if play then flat_play_overrides r1 else r1) := by
  simp only [bxi_elf3_flat_env_cfg, flat_sim_overrides, flat_terrain_override]
  rw [ht]
  simp only [hc, if_true]

def sampleAssetRef : AssetRefCfg :=
  { body_names := [], site_names := [], geom_names := [] }

def sampleTerrain : TerrainCfg :=
  { terrain_type := "generator", terrain_generator := none, terrainRest := 0 }

def sampleRewardTerm : RewardTermCfg :=
  { func := "f", weight := 1, params := [("asset_cfg", ParamValue.assetRef sampleAssetRef)] }

/-- A concrete stand-in for the output of `make_velocity_env_cfg()`: it has a
terrain, a `terrain_levels` curriculum entry, and the dict keys the two
functions address. -/
def sampleBaseCfg : ManagerBasedRlEnvCfg :=
  { episode_length_s := 20
    sim := { njmax := none
             mujoco := { ccd_iterations := 100, mujocoRest := 0 }
             contact_sensor_maxmatch := 32
             nconmax := some 10
             simRest := 0 }
    scene := { entities := [], terrain := some sampleTerrain, sensors := [], sceneRest := 0 }
    viewer := { body_name := none, viewerRest := 0 }
    commands := [("twist",
      { viz := { z_offset := 0, vizRest := 0 }
        ranges := { lin_vel_x := (-1, 1), ang_vel_z := (-1, 1), rangesRest := 0 }
        commandRest := 0 })]
    observations :=
      [ ("policy", { enable_corruption := true, terms := [], obsGroupRest := 0 }),
        ("critic", { enable_corruption := true
                     terms := [("foot_height",
                       { params := [("asset_cfg", ParamValue.assetRef sampleAssetRef)]
                         obsTermRest := 0 })]
                     obsGroupRest := 0 }) ]
    actions := [("joint_pos", { scale := [], actionRest := 0 })]
    events :=
      [ ("foot_friction",
          { func := "f", mode := "reset"
            params := [("asset_cfg", ParamValue.assetRef sampleAssetRef)] }),
        ("base_com",
          { func := "g", mode := "reset"
            params := [("asset_cfg", ParamValue.assetRef sampleAssetRef)] }),
        ("push_robot", { func := "p", mode := "interval", params := [] }) ]
    rewards :=
      [ ("pose", sampleRewardTerm), ("upright", sampleRewardTerm),
        ("body_ang_vel", sampleRewardTerm), ("angular_momentum", sampleRewardTerm),
        ("air_time", sampleRewardTerm), ("foot_clearance", sampleRewardTerm),
        ("foot_swing_height", sampleRewardTerm), ("foot_slip", sampleRewardTerm) ]
    curriculum := [("terrain_levels", "curr")]
    cfgRest := 0 }

set_option maxRecDepth 100000 in
/-- Witness for C9: the frame theorem applied at `play = true` and the
concrete sample base configuration. -/
theorem flat_env_cfg_frame_witness :
    bxi_elf3_flat_env_cfg true sampleBaseCfg =
      some (
        let r := bxi_elf3_rough_env_cfg true sampleBaseCfg
        let r1 : ManagerBasedRlEnvCfg := { r with
          sim := { r.sim with
            njmax := some 300
            mujoco := { r.sim.mujoco with ccd_iterations := 50 }
            contact_sensor_maxmatch := 64
            nconmax := none }
          scene := { r.scene with
            terrain := some ({ sampleTerrain with
              terrain_type := "plane"
              terrain_generator := none }) }
          curriculum := pyDel r.curriculum "terrain_levels" }
        if true then flat_play_overrides r1 else r1) :=
  flat_env_cfg_frame true sampleBaseCfg sampleTerrain rfl rfl
